import Mathlib

/-!
Shallow embedding of `src/browser_session_service.py` (class `BrowserSessionManager`)
for the session-lifecycle and metadata-store claims.

Modelling choices:
* Timestamps (`datetime` values) are naturals counting microseconds since the epoch;
  `datetime.now()` is passed explicitly as a `now` argument at each call that reads the clock.
* The external collaborators (the Fernet cipher composed with `json.dumps`/`json.loads`,
  and the stdlib `datetime.isoformat`/`datetime.fromisoformat` codec) are injected as plain
  functions in an `Env`; each theorem assumes only the pointwise contract of those libraries
  at the values it touches (Fernet: authenticated decrypt inverts encrypt; fromisoformat
  inverts isoformat).  Concrete executable instances are given for witnesses.
* The filesystem visible to the service is the per-key session directory and the
  `session_metadata.json` file inside it; `ManagerState` carries those plus the in-memory
  `active_sessions` map and the set of open browser-automation contexts (`page`/context
  handles are naturals).
* The browser-automation engine is opaque: whether `new_context`/`goto` or
  `_perform_action` succeeds is an input (`CreateOutcome` / `ActionOutcome`), and an
  action failure carries the Python exception message string that line 319 inspects.
-/

namespace BrowserSvc

/-- A `datetime` value, as microseconds since the epoch. -/
abbrev Timestamp := Nat

/-- The session key: `(user_id, site_name)` (the code joins them as `f"{user_id}:{site_name}"`). -/
abbrev Key := String × String

/-- `SessionMetadata` dataclass, lines 32-40. `session_data` is a string-keyed dict of
strings (the code stores `login_url` and `confirmed_at` there). -/
structure SessionMetadata where
  user_id : String
  site_name : String
  created_at : Timestamp
  last_used : Timestamp
  is_valid : Bool
  session_data : List (String × String)
deriving DecidableEq

/-- The serialized form written by `_save_session_metadata` lines 131-134: `asdict(metadata)`
with both timestamps replaced by their ISO-8601 renderings. -/
structure MetadataDict where
  user_id : String
  site_name : String
  created_at : String
  last_used : String
  is_valid : Bool
  session_data : List (String × String)
deriving DecidableEq

/-- Contents of the `session_metadata.json` file: either a well-formed Fernet token of a
serialized dict, or arbitrary other bytes (a tampered or foreign file). -/
inductive Ciphertext where
  | token (d : MetadataDict)
  | raw (bytes : List Nat)
deriving DecidableEq

/-- The external library functions the service composes with:
`enc` is `json.dumps` followed by `Fernet.encrypt` (line 137), `dec` is `Fernet.decrypt`
followed by `json.loads` and the dataclass constructor, returning `none` when any of them
raises; `iso`/`fromiso` are `datetime.isoformat` and `datetime.fromisoformat`,
`fromiso` returning `none` when parsing raises `ValueError`. -/
structure Env where
  enc : MetadataDict → Ciphertext
  dec : Ciphertext → Option MetadataDict
  iso : Timestamp → String
  fromiso : String → Option Timestamp

/-- Pointwise update of a finite map represented as a function. -/
def upd {α β : Type} [DecidableEq α] (f : α → Option β) (k : α) (v : Option β) :
    α → Option β :=
  fun k' => if k' = k then v else f k'

/-- The state a `BrowserSessionManager` plus its slice of the filesystem:
`files key` is the content of `session_metadata.json` in the key's session directory,
`dirExists key` whether that directory exists, `pending` is `self.active_sessions`
(values are opaque `BrowserContext` handles), `openCtxs` the automation contexts
currently open, and `nextCtx` a source of fresh handles. -/
structure ManagerState where
  files : Key → Option Ciphertext
  dirExists : Key → Bool
  pending : Key → Option Nat
  openCtxs : List Nat
  nextCtx : Nat

/-- The `HTTPException`s the service raises, identified by their detail strings:
`noActiveSession` = 404 "No active session found" (line 237),
`sessionNotFound` = 404 "Session not found" (line 281),
`sessionExpired` = 401 "Session expired. Please re-login." (line 284),
`sessionInvalid` = 401 "Session invalid. Please re-login." (line 322),
`dirNotFound` = 404 "Session directory not found" (line 288),
`actionFailed` = 500 "Action failed: ..." (line 324),
`createFailed` = 500 "Failed to create session: ..." (line 228). -/
inductive SvcError where
  | noActiveSession
  | sessionNotFound
  | sessionExpired
  | sessionInvalid
  | dirNotFound
  | actionFailed (msg : String)
  | createFailed (msg : String)
deriving DecidableEq

/-- The HTTP status code each raised `HTTPException` carries. -/
def httpStatus : SvcError → Nat
  | .noActiveSession => 404
  | .sessionNotFound => 404
  | .sessionExpired => 401
  | .sessionInvalid => 401
  | .dirNotFound => 404
  | .actionFailed _ => 500
  | .createFailed _ => 500

/-- The spec's `SessionExpired` class (section 7: "SessionExpired (TTL exceeded or
invalidated)"): both 401 responses of the code fall under it. -/
def isSessionExpiredClass : SvcError → Bool
  | .sessionExpired => true
  | .sessionInvalid => true
  | _ => false

/-- Line 29: `SESSION_TIMEOUT_HOURS = 24 * 7`. -/
def SESSION_TIMEOUT_HOURS : Nat := 24 * 7

/-- One second in the timestamp unit. -/
def microsPerSecond : Nat := 1000000

/-- `timedelta(hours=SESSION_TIMEOUT_HOURS)` in microseconds (line 175). -/
def sessionTimeoutMicros : Nat := SESSION_TIMEOUT_HOURS * 3600 * microsPerSecond

/-- `_is_session_expired`, lines 170-176; `now` is the `datetime.now()` of line 176. -/
def is_session_expired (m : SessionMetadata) (now : Timestamp) : Bool :=
  if !m.is_valid then true
  else decide (m.last_used + sessionTimeoutMicros < now)

/-- The dict built by lines 131-134 of `_save_session_metadata`. -/
def dictOf (env : Env) (m : SessionMetadata) : MetadataDict :=
  { user_id := m.user_id
    site_name := m.site_name
    created_at := env.iso m.created_at
    last_used := env.iso m.last_used
    is_valid := m.is_valid
    session_data := m.session_data }

/-- `_save_session_metadata`, lines 126-143: `mkdir(parents=True, exist_ok=True)` on the
directory, then write the encrypted dict into `session_metadata.json` (the outer
`\x7b"encrypted_metadata": ...\x7d` wrapper is the file content itself). -/
def save_session_metadata (env : Env) (st : ManagerState) (key : Key)
    (m : SessionMetadata) : ManagerState :=
  { st with
    dirExists := fun k => if k = key then true else st.dirExists k
    files := upd st.files key (some (env.enc (dictOf env m))) }

/-- `_load_session_metadata`, lines 145-168: `none` when the file does not exist, and
also `none` (line 166-168 catches every exception and returns `None`) when decryption,
JSON parsing, the dataclass constructor or `fromisoformat` fails. -/
def load_session_metadata (env : Env) (st : ManagerState) (key : Key) :
    Option SessionMetadata :=
  match st.files key with
  | none => none
  | some ct =>
    match env.dec ct with
    | none => none
    | some d =>
      match env.fromiso d.created_at, env.fromiso d.last_used with
      | some c, some l =>
        some { user_id := d.user_id, site_name := d.site_name, created_at := c,
               last_used := l, is_valid := d.is_valid, session_data := d.session_data }
      | _, _ => none

/-- Whether `pat` is a leading segment of `hay`. -/
def leadMatch {α : Type} [DecidableEq α] : List α → List α → Bool
  | [], _ => true
  | _ :: _, [] => false
  | a :: pat, b :: hay => decide (a = b) && leadMatch pat hay

/-- Whether `pat` occurs contiguously somewhere in `hay`. -/
def subOccurs {α : Type} [DecidableEq α] (pat : List α) : List α → Bool
  | [] => leadMatch pat []
  | b :: hay => leadMatch pat (b :: hay) || subOccurs pat hay

/-- Python's `pat in s` substring test. -/
def strContains (hay pat : String) : Bool :=
  subOccurs pat.data hay.data

/-- The failure-signature test of line 319:
`"net::ERR_" in str(e) or "Session expired" in str(e)`. -/
def isValidityFailure (msg : String) : Bool :=
  strContains msg "net::ERR_" || strContains msg "Session expired"

/-- Whether the automation engine's `new_context`/`new_page`/`goto` sequence in
`create_session` succeeds, with the exception message when it does not. -/
inductive CreateOutcome where
  | opened
  | openFailed (msg : String)

/-- Whether `_perform_action` returns a result or raises, with the result payload
respectively the exception message. -/
inductive ActionOutcome where
  | ok (result : String)
  | fail (msg : String)

/-- `create_session`, lines 178-228: make the session directory, open a fresh context,
navigate, and register the context in `active_sessions` under the key — with **no**
check whether the key already has a pending entry (line 205 assigns unconditionally).
On failure the partially created directory is removed by `shutil.rmtree` (lines 226-227),
which also deletes any metadata file inside it. -/
def create_session (st : ManagerState) (key : Key) (login_url : String)
    (outcome : CreateOutcome) : ManagerState × Except SvcError String :=
  let st1 : ManagerState :=
    { st with dirExists := fun k => if k = key then true else st.dirExists k }
  match outcome with
  | .opened =>
    let ctx := st1.nextCtx
    let st2 : ManagerState :=
      { st1 with
        openCtxs := ctx :: st1.openCtxs
        nextCtx := ctx + 1
        pending := upd st1.pending key (some ctx) }
    (st2, Except.ok "session_created")
  | .openFailed msg =>
    let st2 : ManagerState :=
      { st1 with
        dirExists := fun k => if k = key then false else st1.dirExists k
        files := upd st1.files key none }
    (st2, Except.error (SvcError.createFailed msg))

/-- `confirm_login`, lines 230-273: look the key up in `active_sessions`; if absent raise
404 "No active session found"; else build fresh metadata with
`created_at = last_used = now`, `is_valid = True` and the current page URL, persist it,
close the context and delete the pending entry.  `current_url` stands for
`page.url` (line 244); `now` for the `datetime.now()` calls of lines 250-255. -/
def confirm_login (env : Env) (st : ManagerState) (key : Key) (now : Timestamp)
    (current_url : String) : ManagerState × Except SvcError String :=
  match st.pending key with
  | none => (st, Except.error SvcError.noActiveSession)
  | some ctx =>
    let m : SessionMetadata :=
      { user_id := key.1, site_name := key.2, created_at := now, last_used := now,
        is_valid := true,
        session_data := [("login_url", current_url), ("confirmed_at", env.iso now)] }
    let st1 := save_session_metadata env st key m
    let st2 : ManagerState :=
      { st1 with
        openCtxs := st1.openCtxs.erase ctx
        pending := upd st1.pending key none }
    (st2, Except.ok "login_confirmed")

/-- `execute_action`, lines 275-324: load metadata (404 if `None`), reject expired
sessions (401), check the directory (404), open a fresh context on the profile
directory, run the action; on success refresh `last_used`, re-persist, close the
context and return; on failure (lines 317-324) the context is **not** closed, and if
the exception message matches the validity pattern the metadata is re-persisted with
`is_valid = False` before the 401 is raised, otherwise a 500 is raised. -/
def execute_action (env : Env) (st : ManagerState) (key : Key)
    (outcome : ActionOutcome) (now : Timestamp) :
    ManagerState × Except SvcError String :=
  match load_session_metadata env st key with
  | none => (st, Except.error SvcError.sessionNotFound)
  | some m =>
    if is_session_expired m now then (st, Except.error SvcError.sessionExpired)
    else if !st.dirExists key then (st, Except.error SvcError.dirNotFound)
    else
      let ctx := st.nextCtx
      let st1 : ManagerState :=
        { st with openCtxs := ctx :: st.openCtxs, nextCtx := ctx + 1 }
      match outcome with
      | .ok r =>
        let st2 := save_session_metadata env st1 key { m with last_used := now }
        let st3 : ManagerState := { st2 with openCtxs := st2.openCtxs.erase ctx }
        (st3, Except.ok r)
      | .fail msg =>
        if isValidityFailure msg then
          let st2 := save_session_metadata env st1 key { m with is_valid := false }
          (st2, Except.error SvcError.sessionInvalid)
        else
          (st1, Except.error (SvcError.actionFailed msg))

/-- `delete_session`, lines 403-411: `shutil.rmtree` the session directory when it
exists (which also deletes the metadata file inside it) and return `True`, else
return `False`.  It does not touch `active_sessions`. -/
def delete_session (st : ManagerState) (key : Key) : ManagerState × Bool :=
  if st.dirExists key then
    ({ st with
       dirExists := fun k => if k = key then false else st.dirExists k
       files := upd st.files key none }, true)
  else (st, false)

/-!
Filesystem-operation trace of `_save_session_metadata`, at the granularity needed for
the atomicity claim: which paths the function opens, writes and renames, in order.
-/

/-- A path the save routine could touch: the metadata file of a key, or a temporary
file next to it. -/
inductive FsPath where
  | metaFile (k : Key)
  | tmpFile (k : Key) (n : Nat)
deriving DecidableEq

/-- One filesystem operation. `openTrunc` is `open(path, "w")`, which truncates the
file to empty before anything is written. -/
inductive FsOp where
  | mkdirParents (k : Key)
  | openTrunc (p : FsPath)
  | write (p : FsPath) (c : Ciphertext)
  | rename (src tgt : FsPath)
  | chmod (p : FsPath)
deriving DecidableEq

/-- The operations `_save_session_metadata` (lines 126-143) performs, in order:
`metadata_file.parent.mkdir(parents=True, exist_ok=True)`, then
`open(metadata_file, "w")` (truncating), `json.dump(..., f)`, and `os.chmod`. -/
def saveTrace (env : Env) (key : Key) (m : SessionMetadata) : List FsOp :=
  [ FsOp.mkdirParents key,
    FsOp.openTrunc (FsPath.metaFile key),
    FsOp.write (FsPath.metaFile key) (env.enc (dictOf env m)),
    FsOp.chmod (FsPath.metaFile key) ]

/-- Whether an operation mutates the contents at `target` directly (renames excluded). -/
def writesTo : FsOp → FsPath → Prop
  | .openTrunc p, t => p = t
  | .write p _, t => p = t
  | _, _ => False

/-- The spec's claimed write discipline (section 4.3, in the spec's words): the routine
never writes the target file in place; it writes elsewhere and installs the result with
a single rename onto the target. -/
def atomicTempThenRename (tr : List FsOp) (target : FsPath) : Prop :=
  (∀ op ∈ tr, ¬ writesTo op target) ∧ ∃ src, FsOp.rename src target ∈ tr

/-- Effect of one operation on the file contents (`none` = no file,
`some (Ciphertext.raw [])` = empty truncated file). -/
def applyFsOp (f : FsPath → Option Ciphertext) : FsOp → (FsPath → Option Ciphertext)
  | .mkdirParents _ => f
  | .openTrunc p => upd f p (some (Ciphertext.raw []))
  | .write p c => upd f p (some c)
  | .rename src tgt => upd (upd f tgt (f src)) src none
  | .chmod _ => f

/-- File contents after a prefix of a trace has run (the state a crash at that point
would leave on disk). -/
def fileAfter (ops : List FsOp) (f : FsPath → Option Ciphertext) :
    FsPath → Option Ciphertext :=
  ops.foldl applyFsOp f

/-!
Concrete executable instances of the external collaborators, used to instantiate the
theorems at closed inputs: the cipher embeds the dict into a well-formed token and
rejects everything else (the authenticated-encryption contract of Fernet), and the
timestamp codec is an injective rendering with a total parser (the round-trip contract
of `isoformat`/`fromisoformat`).
-/

/-- Concrete stand-in for `json.dumps` + `Fernet.encrypt`. -/
def witnessEnc : MetadataDict → Ciphertext := Ciphertext.token

/-- Concrete stand-in for `Fernet.decrypt` + `json.loads` + the dataclass constructor:
fails on anything that is not a well-formed token. -/
def witnessDec : Ciphertext → Option MetadataDict
  | .token d => some d
  | .raw _ => none

/-- Concrete injective stand-in for `datetime.isoformat`. -/
def witnessIso (t : Timestamp) : String :=
  String.mk (List.replicate t 'x')

/-- Concrete stand-in for `datetime.fromisoformat`, inverting `witnessIso`. -/
def witnessFromiso (s : String) : Option Timestamp :=
  some s.data.length

/-- The environment used by all closed instantiations. -/
def witnessEnv : Env :=
  { enc := witnessEnc, dec := witnessDec, iso := witnessIso, fromiso := witnessFromiso }

/-- A manager with nothing on disk, nothing pending and no open context. -/
def emptyState : ManagerState :=
  { files := fun _ => none, dirExists := fun _ => false, pending := fun _ => none,
    openCtxs := [], nextCtx := 0 }

/-- A sample session key. -/
def kW : Key := ("u1", "siteA")

/-- A sample valid metadata record (timestamps kept tiny so the concrete codec stays
cheap to evaluate). -/
def mW : SessionMetadata :=
  { user_id := "u1", site_name := "siteA", created_at := 3, last_used := 5,
    is_valid := true, session_data := [("login_url", "https://x/login")] }

/-- A manager in which `kW` is PENDING with context handle 0. -/
def stPend : ManagerState :=
  { emptyState with
    pending := upd emptyState.pending kW (some 0)
    openCtxs := [0]
    nextCtx := 1 }

/-- `stPend` with the session directory for `kW` also on disk. -/
def stPendDir : ManagerState :=
  { stPend with dirExists := fun k => if k = kW then true else false }

/-- A manager holding the confirmed session `mW` on disk (built by the save routine
itself). -/
def stConf : ManagerState :=
  save_session_metadata witnessEnv emptyState kW mW

/-- A tampered metadata file content: bytes that are not a token of the cipher. -/
def ctBad : Ciphertext := Ciphertext.raw [1, 2, 3]

/-- A manager whose metadata file for `kW` exists but is undecryptable. -/
def stCorrupt : ManagerState :=
  { emptyState with
    files := upd emptyState.files kW (some ctBad)
    dirExists := fun k => if k = kW then true else false }

/-! Helper lemmas shared by several claims. -/

theorem upd_same {α β : Type} [DecidableEq α] (f : α → Option β) (k : α)
    (v : Option β) : upd f k v k = v := by
  simp [upd]

/-- Round-trip of the metadata store, as a reusable lemma: saving and then loading the
same key yields the saved record, given the library contracts at the touched values. -/
theorem load_after_save (env : Env) (st : ManagerState) (key : Key)
    (m : SessionMetadata)
    (hdec : env.dec (env.enc (dictOf env m)) = some (dictOf env m))
    (hc : env.fromiso (env.iso m.created_at) = some m.created_at)
    (hl : env.fromiso (env.iso m.last_used) = some m.last_used) :
    load_session_metadata env (save_session_metadata env st key m) key = some m := by
  simp only [load_session_metadata, save_session_metadata, upd_same, hdec]
  simp only [dictOf] at hc hl ⊢
  simp [hc, hl]

/-- C1: for every metadata record `m` and key, loading immediately after saving `m`
under that key (no intervening write) returns a record equal to `m` field-for-field —
in particular the timestamps are preserved exactly, hence at least to the second.  The
hypotheses are the pointwise contracts of the external libraries: Fernet decryption
inverts encryption on an honest token, and `fromisoformat` inverts `isoformat`. -/
theorem metadata_roundtrip (env : Env) (st : ManagerState) (key : Key)
    (m : SessionMetadata)
    (hdec : env.dec (env.enc (dictOf env m)) = some (dictOf env m))
    (hc : env.fromiso (env.iso m.created_at) = some m.created_at)
    (hl : env.fromiso (env.iso m.last_used) = some m.last_used) :
    load_session_metadata env (save_session_metadata env st key m) key = some m :=
  load_after_save env st key m hdec hc hl

/-- Closed instance of `metadata_roundtrip` at the concrete environment and inputs. -/
theorem metadata_roundtrip_witness :
    load_session_metadata witnessEnv
      (save_session_metadata witnessEnv emptyState kW mW) kW = some mW :=
  metadata_roundtrip witnessEnv emptyState kW mW rfl rfl rfl

/-- C2 (counterexample): a key whose metadata file exists but is undecryptable (the
content `ctBad` is not a token of the cipher) makes `_load_session_metadata` return
`None` — exactly the "absent / no session" result — and `execute_action` on that key
consequently reports 404 "Session not found"; no `CorruptMetadata`-style error is ever
surfaced, contradicting the claim. -/
theorem corrupt_load_counterexample :
    stCorrupt.files kW = some ctBad ∧
    witnessEnv.dec ctBad = none ∧
    load_session_metadata witnessEnv stCorrupt kW = none ∧
    (execute_action witnessEnv stCorrupt kW (ActionOutcome.ok "r") 0).2 =
      Except.error SvcError.sessionNotFound :=
  ⟨rfl, rfl, rfl, rfl⟩

/-- C2 (amended): for every key whose metadata file exists but is undecryptable or has
an unparsable timestamp, `_load_session_metadata` returns `None` — the same result as
"no session on disk".  Corruption is silently treated as absence (the `except` clause
of lines 166-168 swallows the failure); it is not reported to the caller, though no
wrong data is returned either. -/
theorem corrupt_metadata_silently_absent (env : Env) (st : ManagerState) (key : Key)
    (ct : Ciphertext) (d : MetadataDict) (hfile : st.files key = some ct) :
    (env.dec ct = none → load_session_metadata env st key = none) ∧
    (env.dec ct = some d → env.fromiso d.created_at = none →
      load_session_metadata env st key = none) := by
  constructor
  · intro h
    simp [load_session_metadata, hfile, h]
  · intro h h2
    simp [load_session_metadata, hfile, h, h2]

/-- Closed instance of `corrupt_metadata_silently_absent` on the tampered state. -/
theorem corrupt_metadata_silently_absent_witness :
    load_session_metadata witnessEnv stCorrupt kW = none :=
  (corrupt_metadata_silently_absent witnessEnv stCorrupt kW ctBad
    (dictOf witnessEnv mW) rfl).1 rfl

/-- C3: `_is_session_expired` returns true exactly when the validity flag is false or
`now` is strictly past `last_used + TTL`, the TTL constant is 168 hours, the session is
not yet expired one second before `last_used + TTL` (with the flag true), is expired
one second after, and is always expired when the flag is false. -/
theorem expiration_policy (m : SessionMetadata) (now : Timestamp) :
    (is_session_expired m now = true ↔
      (m.is_valid = false ∨ m.last_used + sessionTimeoutMicros < now)) ∧
    SESSION_TIMEOUT_HOURS = 168 ∧
    is_session_expired { m with is_valid := true }
      (m.last_used + sessionTimeoutMicros - microsPerSecond) = false ∧
    is_session_expired { m with is_valid := true }
      (m.last_used + sessionTimeoutMicros + microsPerSecond) = true ∧
    is_session_expired { m with is_valid := false } now = true := by
  refine ⟨?_, rfl, ?_, ?_, rfl⟩
  · cases hv : m.is_valid <;> simp [is_session_expired, hv]
  · simp only [is_session_expired, Bool.not_true, if_neg]
    simp
  · simp only [is_session_expired, Bool.not_true, if_neg]
    simp [microsPerSecond]

/-- C4 (counterexample): with key `kW` already PENDING (context handle 0 registered),
a second `create_session` for the same key does not fail: it returns the success
result and silently overwrites the pending entry with the freshly opened context 1
(line 205 assigns into `active_sessions` without any pending check). -/
theorem create_pending_counterexample :
    stPend.pending kW = some 0 ∧
    (create_session stPend kW "https://x/login" CreateOutcome.opened).2 =
      Except.ok "session_created" ∧
    (create_session stPend kW "https://x/login" CreateOutcome.opened).1.pending kW =
      some 1 :=
  ⟨rfl, rfl, rfl⟩

/-- C4 (amended): a second `create_session` for a key that is already PENDING succeeds
and silently replaces the registered context with the freshly opened one; nothing is
closed in the process (the old handle stays registered nowhere and its context stays
open), so the open automation context is leaked rather than protected by a
"pending exists" error. -/
theorem create_silently_replaces_pending (st : ManagerState) (key : Key)
    (url : String) (ctx : Nat) (h : st.pending key = some ctx) :
    (create_session st key url CreateOutcome.opened).2 = Except.ok "session_created" ∧
    (create_session st key url CreateOutcome.opened).1.pending key =
      some st.nextCtx ∧
    (create_session st key url CreateOutcome.opened).1.openCtxs =
      st.nextCtx :: st.openCtxs := by
  refine ⟨rfl, ?_, rfl⟩
  simp [create_session, upd_same]

/-- Closed instance of `create_silently_replaces_pending` on the pending state. -/
theorem create_silently_replaces_pending_witness :
    (create_session stPend kW "https://x/login" CreateOutcome.opened).2 =
      Except.ok "session_created" ∧
    (create_session stPend kW "https://x/login" CreateOutcome.opened).1.pending kW =
      some stPend.nextCtx ∧
    (create_session stPend kW "https://x/login" CreateOutcome.opened).1.openCtxs =
      stPend.nextCtx :: stPend.openCtxs :=
  create_silently_replaces_pending stPend kW "https://x/login" 0 rfl

/-- C5: `confirm_login` on a key that is not PENDING fails with
404 "No active session found"; on a PENDING key it succeeds, removes the pending
entry, and therefore a second `confirm_login` (no new create in between) fails with
the same "no active session" error — confirm is not idempotent. -/
theorem confirm_requires_pending (env : Env) (st : ManagerState) (key : Key)
    (now : Timestamp) (url : String) (now2 : Timestamp) (url2 : String) :
    (st.pending key = none →
      (confirm_login env st key now url).2 =
        Except.error SvcError.noActiveSession) ∧
    (∀ ctx, st.pending key = some ctx →
      (confirm_login env st key now url).2 = Except.ok "login_confirmed" ∧
      (confirm_login env st key now url).1.pending key = none ∧
      (confirm_login env (confirm_login env st key now url).1 key now2 url2).2 =
        Except.error SvcError.noActiveSession) := by
  constructor
  · intro h
    simp [confirm_login, h]
  · intro ctx h
    refine ⟨?_, ?_, ?_⟩ <;>
      simp [confirm_login, h, save_session_metadata, upd_same]

/-- Closed instance of `confirm_requires_pending`: confirming with nothing pending
fails, and confirming twice in a row on a pending key fails the second time. -/
theorem confirm_requires_pending_witness :
    (confirm_login witnessEnv emptyState kW 7 "https://x/home").2 =
      Except.error SvcError.noActiveSession ∧
    (confirm_login witnessEnv
        (confirm_login witnessEnv stPend kW 7 "https://x/home").1
        kW 8 "https://x/home").2 = Except.error SvcError.noActiveSession :=
  ⟨(confirm_requires_pending witnessEnv emptyState kW 7 "https://x/home" 8 "u").1 rfl,
   ((confirm_requires_pending witnessEnv stPend kW 7 "https://x/home" 8
      "https://x/home").2 0 rfl).2.2⟩

/-- C6: when `execute_action` on a confirmed, unexpired session fails with a message
matching the transport/navigation-error pattern of line 319, the metadata is
re-persisted with `is_valid = False` before the 401 is raised (the raised error is in
the spec's `SessionExpired` class, which covers invalidated sessions), and every
subsequent `execute_action` on the same key fails with 401 "Session expired." while
leaving the state unchanged. -/
theorem execute_transport_failure_invalidates (env : Env) (st : ManagerState)
    (key : Key) (m : SessionMetadata) (msg : String) (now : Timestamp)
    (outcome2 : ActionOutcome) (now2 : Timestamp)
    (hload : load_session_metadata env st key = some m)
    (hexp : is_session_expired m now = false)
    (hdir : st.dirExists key = true)
    (hmsg : isValidityFailure msg = true)
    (hdec : env.dec (env.enc (dictOf env { m with is_valid := false })) =
      some (dictOf env { m with is_valid := false }))
    (hc : env.fromiso (env.iso m.created_at) = some m.created_at)
    (hl : env.fromiso (env.iso m.last_used) = some m.last_used) :
    (execute_action env st key (ActionOutcome.fail msg) now).2 =
      Except.error SvcError.sessionInvalid ∧
    isSessionExpiredClass SvcError.sessionInvalid = true ∧
    load_session_metadata env
      (execute_action env st key (ActionOutcome.fail msg) now).1 key =
      some { m with is_valid := false } ∧
    (execute_action env (execute_action env st key (ActionOutcome.fail msg) now).1
        key outcome2 now2).2 = Except.error SvcError.sessionExpired ∧
    (execute_action env (execute_action env st key (ActionOutcome.fail msg) now).1
        key outcome2 now2).1 =
      (execute_action env st key (ActionOutcome.fail msg) now).1 := by
  have hstep :
      execute_action env st key (ActionOutcome.fail msg) now =
        (save_session_metadata env
          { st with openCtxs := st.nextCtx :: st.openCtxs, nextCtx := st.nextCtx + 1 }
          key { m with is_valid := false },
         Except.error SvcError.sessionInvalid) := by
    simp [execute_action, hload, hexp, hdir, hmsg]
  have hload2 :
      load_session_metadata env
        (save_session_metadata env
          { st with openCtxs := st.nextCtx :: st.openCtxs, nextCtx := st.nextCtx + 1 }
          key { m with is_valid := false }) key =
        some { m with is_valid := false } :=
    load_after_save env _ key _ hdec hc hl
  refine ⟨by rw [hstep], rfl, ?_, ?_, ?_⟩
  · rw [hstep]
    exact hload2
  · rw [hstep]
    simp [execute_action, hload2, is_session_expired]
  · rw [hstep]
    simp [execute_action, hload2, is_session_expired]

/-- Closed instance of `execute_transport_failure_invalidates` on the confirmed
session, with a `net::ERR_` failure signature. -/
theorem execute_transport_failure_invalidates_witness :
    (execute_action witnessEnv stConf kW
        (ActionOutcome.fail "net::ERR_CONNECTION_RESET") 6).2 =
      Except.error SvcError.sessionInvalid ∧
    isSessionExpiredClass SvcError.sessionInvalid = true ∧
    load_session_metadata witnessEnv
      (execute_action witnessEnv stConf kW
        (ActionOutcome.fail "net::ERR_CONNECTION_RESET") 6).1 kW =
      some { mW with is_valid := false } ∧
    (execute_action witnessEnv
        (execute_action witnessEnv stConf kW
          (ActionOutcome.fail "net::ERR_CONNECTION_RESET") 6).1
        kW (ActionOutcome.ok "retry") 9).2 =
      Except.error SvcError.sessionExpired ∧
    (execute_action witnessEnv
        (execute_action witnessEnv stConf kW
          (ActionOutcome.fail "net::ERR_CONNECTION_RESET") 6).1
        kW (ActionOutcome.ok "retry") 9).1 =
      (execute_action witnessEnv stConf kW
        (ActionOutcome.fail "net::ERR_CONNECTION_RESET") 6).1 :=
  execute_transport_failure_invalidates witnessEnv stConf kW mW
    "net::ERR_CONNECTION_RESET" 6 (ActionOutcome.ok "retry") 9
    rfl rfl rfl rfl rfl rfl rfl

/-- C7 (counterexample): the filesystem trace of `_save_session_metadata` is not of the
write-temp-then-rename shape: it opens the metadata file itself for (truncating)
writing, so the claimed atomicity discipline fails already on the concrete save of
`mW` under `kW`. -/
theorem save_not_atomic_counterexample :
    ¬ atomicTempThenRename (saveTrace witnessEnv kW mW) (FsPath.metaFile kW) := by
  intro hA
  exact hA.1 (FsOp.openTrunc (FsPath.metaFile kW)) (by simp [saveTrace]) rfl

/-- C7 (amended): `_save_session_metadata` overwrites the metadata file in place
(`open(path, "w")` then `json.dump`), performing no rename; consequently a crash
between the truncating open and the write leaves the file empty — holding neither the
complete previous content nor the complete new content. -/
theorem save_in_place_overwrite (env : Env) (key : Key) (m : SessionMetadata)
    (f : FsPath → Option Ciphertext) (c0 : Ciphertext)
    (h0 : f (FsPath.metaFile key) = some c0)
    (hc0 : c0 ≠ Ciphertext.raw [])
    (hnew : env.enc (dictOf env m) ≠ Ciphertext.raw []) :
    (¬ atomicTempThenRename (saveTrace env key m) (FsPath.metaFile key)) ∧
    ∃ pre suff, saveTrace env key m = pre ++ suff ∧
      fileAfter pre f (FsPath.metaFile key) = some (Ciphertext.raw []) ∧
      fileAfter pre f (FsPath.metaFile key) ≠ some c0 ∧
      fileAfter pre f (FsPath.metaFile key) ≠ some (env.enc (dictOf env m)) := by
  have hfz :
      fileAfter [FsOp.mkdirParents key, FsOp.openTrunc (FsPath.metaFile key)] f
        (FsPath.metaFile key) = some (Ciphertext.raw []) := by
    simp [fileAfter, applyFsOp, upd_same]
  constructor
  · intro hA
    exact hA.1 (FsOp.openTrunc (FsPath.metaFile key)) (by simp [saveTrace]) rfl
  · refine ⟨[FsOp.mkdirParents key, FsOp.openTrunc (FsPath.metaFile key)],
      [FsOp.write (FsPath.metaFile key) (env.enc (dictOf env m)),
       FsOp.chmod (FsPath.metaFile key)], rfl, hfz, ?_, ?_⟩
    · rw [hfz]
      intro hEq
      exact hc0 (Option.some_inj.mp hEq).symm
    · rw [hfz]
      intro hEq
      exact hnew (Option.some_inj.mp hEq).symm

/-- A disk on which the metadata file for `kW` holds a complete previous token. -/
def fW : FsPath → Option Ciphertext := fun p =>
  if p = FsPath.metaFile kW then some (Ciphertext.token (dictOf witnessEnv mW))
  else none

/-- Closed instance of `save_in_place_overwrite` on the concrete disk `fW`. -/
theorem save_in_place_overwrite_witness :
    (¬ atomicTempThenRename (saveTrace witnessEnv kW mW) (FsPath.metaFile kW)) ∧
    ∃ pre suff, saveTrace witnessEnv kW mW = pre ++ suff ∧
      fileAfter pre fW (FsPath.metaFile kW) = some (Ciphertext.raw []) ∧
      fileAfter pre fW (FsPath.metaFile kW) ≠
        some (Ciphertext.token (dictOf witnessEnv mW)) ∧
      fileAfter pre fW (FsPath.metaFile kW) ≠
        some (witnessEnv.enc (dictOf witnessEnv mW)) :=
  save_in_place_overwrite witnessEnv kW mW fW (Ciphertext.token (dictOf witnessEnv mW))
    rfl (fun hEq => Ciphertext.noConfusion hEq) (fun hEq => Ciphertext.noConfusion hEq)

/-- C8 (counterexample): on the confirmed session `stConf` (no contexts open,
`nextCtx = 0`), an `execute_action` whose action handler fails with a generic message
surfaces 500 "Action failed" while the context it opened (handle 0) is still in the
open set afterwards — the profile context handle is leaked on the failure path. -/
theorem execute_leaks_context_counterexample :
    stConf.openCtxs = [] ∧
    (execute_action witnessEnv stConf kW (ActionOutcome.fail "boom") 6).2 =
      Except.error (SvcError.actionFailed "boom") ∧
    (execute_action witnessEnv stConf kW (ActionOutcome.fail "boom") 6).1.openCtxs =
      [0] :=
  ⟨rfl, rfl, rfl⟩

/-- C8 (amended): the browser context opened by `execute_action` is closed on the
success path only (the open set is restored); on an action failure — transport
signature or not — the `except` block of lines 317-324 re-raises without closing, so
the freshly opened context remains in the open set. -/
theorem execute_context_close_paths (env : Env) (st : ManagerState) (key : Key)
    (m : SessionMetadata) (r msg : String) (now : Timestamp)
    (hload : load_session_metadata env st key = some m)
    (hexp : is_session_expired m now = false)
    (hdir : st.dirExists key = true) :
    (execute_action env st key (ActionOutcome.ok r) now).1.openCtxs = st.openCtxs ∧
    (execute_action env st key (ActionOutcome.fail msg) now).1.openCtxs =
      st.nextCtx :: st.openCtxs := by
  constructor
  · simp [execute_action, hload, hexp, hdir, save_session_metadata]
  · cases hv : isValidityFailure msg <;>
      simp [execute_action, hload, hexp, hdir, hv, save_session_metadata]

/-- Closed instance of `execute_context_close_paths` on the confirmed session. -/
theorem execute_context_close_paths_witness :
    (execute_action witnessEnv stConf kW (ActionOutcome.ok "done") 6).1.openCtxs =
      stConf.openCtxs ∧
    (execute_action witnessEnv stConf kW (ActionOutcome.fail "boom") 6).1.openCtxs =
      stConf.nextCtx :: stConf.openCtxs :=
  execute_context_close_paths witnessEnv stConf kW mW "done" "boom" 6 rfl rfl rfl

/-- C9 (counterexample): deleting a session whose directory exists while the same key
is PENDING in memory returns `True` but leaves the pending entry registered —
`delete_session` never touches `active_sessions`, contradicting the claim that the
in-memory pending entry is removed. -/
theorem delete_keeps_pending_counterexample :
    stPendDir.pending kW = some 0 ∧
    (delete_session stPendDir kW).2 = true ∧
    (delete_session stPendDir kW).1.pending kW = some 0 :=
  ⟨rfl, rfl, rfl⟩

/-- C9 (amended): `delete_session` succeeds unconditionally and returns `True` exactly
when the on-disk session directory existed (and was removed, together with the
metadata file inside it), so a second delete of the same key returns `False`; but it
does not remove the in-memory pending entry for the key. -/
theorem delete_session_behavior (st : ManagerState) (key : Key) :
    (delete_session st key).2 = st.dirExists key ∧
    (delete_session st key).1.dirExists key = false ∧
    (delete_session (delete_session st key).1 key).2 = false ∧
    (delete_session st key).1.pending key = st.pending key := by
  cases h : st.dirExists key <;> simp [delete_session, h]

/-- C10: a successful `execute_action` re-persists exactly the loaded metadata with
`last_used` replaced by the current time: `user_id`, `site_name`, `created_at`,
`is_valid` and `session_data` are carried over unchanged into the stored record. -/
theorem execute_success_frame (env : Env) (st : ManagerState) (key : Key)
    (m : SessionMetadata) (r : String) (now : Timestamp)
    (hload : load_session_metadata env st key = some m)
    (hexp : is_session_expired m now = false)
    (hdir : st.dirExists key = true) :
    (execute_action env st key (ActionOutcome.ok r) now).2 = Except.ok r ∧
    (execute_action env st key (ActionOutcome.ok r) now).1.files key =
      some (env.enc (dictOf env { m with last_used := now })) := by
  constructor <;>
    simp [execute_action, hload, hexp, hdir, save_session_metadata, upd_same]

/-- Closed instance of `execute_success_frame` on the confirmed session. -/
theorem execute_success_frame_witness :
    (execute_action witnessEnv stConf kW (ActionOutcome.ok "done") 6).2 =
      Except.ok "done" ∧
    (execute_action witnessEnv stConf kW (ActionOutcome.ok "done") 6).1.files kW =
      some (witnessEnv.enc (dictOf witnessEnv { mW with last_used := 6 })) :=
  execute_success_frame witnessEnv stConf kW mW "done" 6 rfl rfl rfl

end BrowserSvc
